import Mathlib

/-!
Verification of the risk-scoring pipeline (`EOT/scoring.py` and the
contracts of its helper modules `features`, `rules`, `explainability`).

Numbers are modelled as rationals (`ℚ`); Python's `round` (banker's
rounding, half to even) is modelled by `pyRound`. Mapping types
(`Dict[str, float]`) are modelled as association lists, looked up by
first match as a Python dict with unique keys would be.
-/

namespace EOT

/-- Python's built-in `round` to an integer: round half to even. -/
def pyRound (q : ℚ) : ℤ :=
  let f : ℤ := ⌊q⌋
  let r : ℚ := q - f
  if r < 1/2 then f
  else if 1/2 < r then f + 1
  else if f % 2 = 0 then f else f + 1

/-- `RiskStatus` enum from `scoring.py` (spec names: LEGITIMATE,
SUSPICIOUS, HIGH_RISK). -/
inductive RiskStatus where
  | LEGITIMO
  | DESCONFIAVEL
  | ALTO_RISCO
deriving DecidableEq, Repr

/-- `RecommendedAction` enum from `scoring.py`. -/
inductive RecommendedAction where
  | ALLOW
  | STEP_UP_AUTH
  | BLOCK
deriving DecidableEq, Repr

/-- A feature set: mapping from feature name to numeric value
(booleans as 0/1). -/
abbrev FeatureSet := List (String × ℚ)

/-- A weight configuration: mapping from feature name to signed weight. -/
abbrev WeightConfig := List (String × ℚ)

/-- The free-form audit `context` map. -/
abbrev Context := List (String × String)

/-- The input payload (`ScoreInput` dataclass): four groups of signals
plus an optional `context` map. -/
structure ScoreInput where
  device : List (String × ℚ)
  behavior : List (String × ℚ)
  geo : List (String × ℚ)
  biometrics : List (String × ℚ)
  context : Option Context
deriving DecidableEq, Repr

/-- One reason code: `{"code": ..., "contribution": ...}`. -/
structure ReasonCode where
  code : String
  contribution : ℚ
deriving DecidableEq, Repr

/-- The metadata assembled by `calculate_score` (lines 110-114). -/
structure Metadata where
  model_version : String
  hard_rule_fired : Bool
  context : Context
deriving DecidableEq, Repr

/-- `ScoreResult` dataclass from `scoring.py`. -/
structure ScoreResult where
  score : ℤ
  status : RiskStatus
  recommended_action : RecommendedAction
  reason_codes : List ReasonCode
  metadata : Metadata
deriving DecidableEq, Repr

/-- First-match lookup in an association list (Python dict access). -/
def lookupW (n : String) : List (String × ℚ) → Option ℚ
  | [] => none
  | e :: es => if e.1 = n then some e.2 else lookupW n es

/-- Feature value with neutral default 0. -/
def featureVal (fs : FeatureSet) (n : String) : ℚ :=
  (lookupW n fs).getD 0

/-- Modelled from the spec: `features.py` (`extract_all_features`) is not
in src. Per §4.1 extraction is a total, deterministic, side-effect-free
map from the payload to a feature set; we model it as collecting the
signal entries of the four payload groups. -/
def extract_all_features (p : ScoreInput) : FeatureSet :=
  p.device ++ p.behavior ++ p.geo ++ p.biometrics

/-- Modelled from the spec: `rules.py` (`hard_rules`) is not in src. Per
§4.2 the rules are an ordered list of predicates over the feature set,
short-circuiting on the first match and returning its code; the spec's
example rules are a revoked-credential flag and a known-malicious IP. -/
def hardRuleList : List ((FeatureSet → Bool) × String) :=
  [ (fun fs => decide (featureVal fs "credential_revoked" ≠ 0),
      "HARD_CREDENTIAL_REVOKED"),
    (fun fs => decide (featureVal fs "ip_blacklisted" ≠ 0),
      "HARD_IP_BLACKLISTED") ]

/-- Modelled from the spec: evaluation contract `(fired, code)` of the
hard rule engine (§4.2, §6). -/
def hard_rules (fs : FeatureSet) : Bool × String :=
  match hardRuleList.find? (fun r => r.1 fs) with
  | some r => (true, r.2)
  | none => (false, "")

/-- Modelled from the spec: `rules.py` (`weighted_sum`) is not in src.
Per §4.3: for every feature present in both the feature set and the
weights, contribution = value × weight; the raw score is the sum. -/
def weighted_sum (features : FeatureSet) (w : WeightConfig) :
    ℚ × List (String × ℚ) :=
  let contribs := features.filterMap
    (fun f => (lookupW f.1 w).map (fun wt => (f.1, f.2 * wt)))
  ((contribs.map Prod.snd).sum, contribs)

/-- Stable insertion for descending sort by absolute contribution:
the new element goes before the first strictly smaller entry, after
equals (stability). -/
def insertDescAbs (x : String × ℚ) : List (String × ℚ) → List (String × ℚ)
  | [] => [x]
  | y :: ys => if |y.2| ≤ |x.2| then x :: y :: ys else y :: insertDescAbs x ys

/-- Stable sort by descending absolute contribution. -/
def sortDescAbs : List (String × ℚ) → List (String × ℚ)
  | [] => []
  | x :: xs => insertDescAbs x (sortDescAbs xs)

/-- Modelled from the spec: `explainability.py` (`top_reason_codes`) is
not in src. Per §4.6: select the `top_k` contributions by absolute
magnitude, descending, ties broken by original order (stable sort). -/
def top_reason_codes (contribs : List (String × ℚ)) (top_k : ℕ) :
    List ReasonCode :=
  ((sortDescAbs contribs).take top_k).map (fun c => ⟨c.1, c.2⟩)

/-- Modelled from the spec: `rules.py` (`DEFAULT_WEIGHTS`) is not in src.
Per §4.7 it is a module-wide default weight configuration; per Scenario B
it contains a single largest positive weight; signs follow §3 (positive
for risk signals, negative for trust signals). -/
def DEFAULT_WEIGHTS : WeightConfig :=
  [ ("ip_risk", 2), ("geo_velocity_risk", 3/2), ("behavior_anomaly", 1),
    ("device_known", -(3/2)), ("biometric_match", -2),
    ("credential_revoked", 5) ]

/-- `_calibrate_score` (scoring.py lines 52-59): clamp the normalized raw
score to [-1, 1], rescale to [0, 100], round. -/
def calibrate_score (score_raw max_abs_weight : ℚ) : ℤ :=
  let m := if max_abs_weight ≤ 0 then 1 else max_abs_weight
  let normalized := max (min (score_raw / m) 1) (-1)
  let scaled := (normalized + 1) * 50
  pyRound scaled

/-- `_map_to_status_action` (scoring.py lines 62-68). -/
def map_to_status_action (score : ℤ) : RiskStatus × RecommendedAction :=
  if 75 ≤ score then (RiskStatus.LEGITIMO, RecommendedAction.ALLOW)
  else if 50 ≤ score then (RiskStatus.DESCONFIAVEL, RecommendedAction.STEP_UP_AUTH)
  else (RiskStatus.ALTO_RISCO, RecommendedAction.BLOCK)

/-- `w = weights or DEFAULT_WEIGHTS` (scoring.py line 82): Python
truthiness makes both `None` and an empty dict fall back to the default
weights. -/
def effectiveWeights (weights : Option WeightConfig) : WeightConfig :=
  match weights with
  | none => DEFAULT_WEIGHTS
  | some ws => if ws = [] then DEFAULT_WEIGHTS else ws

/-- `dynamic_max` (scoring.py line 97): `max(1.0, sum(abs(v) for v in
w.values()) / 2.0)`. -/
def dynamic_max (w : WeightConfig) : ℚ :=
  max 1 ((w.map (fun e => |e.2|)).sum / 2)

/-- `calculate_score` (scoring.py lines 74-124), the main entry point. -/
def calculate_score (payload : ScoreInput) (weights : Option WeightConfig) :
    ScoreResult :=
  let w := effectiveWeights weights
  let features := extract_all_features payload
  let fr := hard_rules features
  let swc := weighted_sum features w
  let score := calibrate_score swc.1 (dynamic_max w)
  let sa := map_to_status_action score
  let reasons0 := top_reason_codes swc.2 5
  let reasons := if fr.1 then ⟨fr.2, -999⟩ :: reasons0 else reasons0
  { score := score
    status := sa.1
    recommended_action := sa.2
    reason_codes := reasons
    metadata := { model_version := "v0.1.0"
                  hard_rule_fired := fr.1
                  context := payload.context.getD [] } }

/-- A variant of the pipeline in which no hard rule ever fires; used to
state that a fired hard rule only annotates the result. -/
def calculate_score_no_hard (payload : ScoreInput)
    (weights : Option WeightConfig) : ScoreResult :=
  let w := effectiveWeights weights
  let features := extract_all_features payload
  let swc := weighted_sum features w
  let score := calibrate_score swc.1 (dynamic_max w)
  let sa := map_to_status_action score
  { score := score
    status := sa.1
    recommended_action := sa.2
    reason_codes := top_reason_codes swc.2 5
    metadata := { model_version := "v0.1.0"
                  hard_rule_fired := false
                  context := payload.context.getD [] } }

/-- Descending order on reason codes by absolute contribution. -/
def reasonGE (a b : ReasonCode) : Prop :=
  |b.contribution| ≤ |a.contribution|

instance : DecidableRel reasonGE := fun a b =>
  inferInstanceAs (Decidable (|b.contribution| ≤ |a.contribution|))

/-- The calibration formula exactly as the spec states it (§4.4):
`round((clamp(raw / max(1.0, sum(|w|)/2), -1, 1) + 1) * 50)`, with
Python rounding. Stated separately from `calibrate_score` to compare
source and spec. -/
def calibrate_spec (raw : ℚ) (w : WeightConfig) : ℤ :=
  pyRound ((max (min (raw / max 1 ((w.map (fun e => |e.2|)).sum / 2)) 1) (-1) + 1) * 50)

/-! ### Helper lemmas -/

theorem pyRound_def (q : ℚ) :
    pyRound q = if q - ⌊q⌋ < 1/2 then ⌊q⌋
      else if 1/2 < q - ⌊q⌋ then ⌊q⌋ + 1
      else if ⌊q⌋ % 2 = 0 then ⌊q⌋ else ⌊q⌋ + 1 := rfl

theorem pyRound_ofInt (n : ℤ) : pyRound (n : ℚ) = n := by
  simp [pyRound]

theorem pyRound_eq {q : ℚ} {n : ℤ} (h : q = n) : pyRound q = n :=
  h ▸ pyRound_ofInt n

theorem floor_le_pyRound (q : ℚ) : ⌊q⌋ ≤ pyRound q := by
  rw [pyRound_def]; split_ifs <;> omega

theorem pyRound_le_floor_add_one (q : ℚ) : pyRound q ≤ ⌊q⌋ + 1 := by
  rw [pyRound_def]; split_ifs <;> omega

theorem pyRound_le_ceil (q : ℚ) : pyRound q ≤ ⌈q⌉ := by
  rw [pyRound_def]
  have hfc : ⌊q⌋ ≤ ⌈q⌉ := Int.floor_le_ceil q
  have hfq : (⌊q⌋ : ℚ) ≤ q := Int.floor_le q
  split_ifs with h1 h2 h3
  · exact hfc
  · have : (⌊q⌋ : ℚ) < q := by linarith
    have := Int.lt_ceil.mpr this
    omega
  · exact hfc
  · have : (⌊q⌋ : ℚ) < q := by linarith
    have := Int.lt_ceil.mpr this
    omega

theorem pyRound_mono {x y : ℚ} (hxy : x ≤ y) : pyRound x ≤ pyRound y := by
  have hf : ⌊x⌋ ≤ ⌊y⌋ := Int.floor_mono hxy
  rcases hf.lt_or_eq with h | h
  · calc pyRound x ≤ ⌊x⌋ + 1 := pyRound_le_floor_add_one x
      _ ≤ ⌊y⌋ := by omega
      _ ≤ pyRound y := floor_le_pyRound y
  · have hr : x - ⌊x⌋ ≤ y - ⌊y⌋ := by
      rw [← h]; linarith
    rw [pyRound_def, pyRound_def, ← h]
    rw [← h] at hr
    split_ifs <;> first | omega | linarith

theorem pyRound_nonneg {q : ℚ} (h : 0 ≤ q) : 0 ≤ pyRound q := by
  have : (0 : ℤ) ≤ ⌊q⌋ := by
    exact_mod_cast Int.le_floor.mpr (by exact_mod_cast h)
  have := floor_le_pyRound q
  omega

theorem pyRound_le_of_le {q : ℚ} {n : ℤ} (h : q ≤ n) : pyRound q ≤ n := by
  have h1 : ⌈q⌉ ≤ n := Int.ceil_le.mpr h
  have := pyRound_le_ceil q
  omega

theorem calibrate_score_def (raw m : ℚ) :
    calibrate_score raw m =
      pyRound ((max (min (raw / (if m ≤ 0 then 1 else m)) 1) (-1) + 1) * 50) := rfl

theorem calibrate_score_nonneg (raw m : ℚ) : 0 ≤ calibrate_score raw m := by
  rw [calibrate_score_def]
  apply pyRound_nonneg
  have h1 : (-1 : ℚ) ≤ max (min (raw / (if m ≤ 0 then 1 else m)) 1) (-1) :=
    le_max_right _ _
  nlinarith

theorem calibrate_score_le_100 (raw m : ℚ) : calibrate_score raw m ≤ 100 := by
  rw [calibrate_score_def]
  apply pyRound_le_of_le
  have h1 : max (min (raw / (if m ≤ 0 then 1 else m)) 1) (-1) ≤ 1 :=
    max_le (min_le_right _ _) (by norm_num)
  push_cast
  nlinarith

theorem calibrate_score_mono {r1 r2 : ℚ} (m : ℚ) (h : r1 ≤ r2) :
    calibrate_score r1 m ≤ calibrate_score r2 m := by
  rw [calibrate_score_def, calibrate_score_def]
  apply pyRound_mono
  have hm : (0 : ℚ) < if m ≤ 0 then 1 else m := by
    split_ifs with hm0
    · norm_num
    · linarith [not_le.mp hm0]
  have hdiv : r1 / (if m ≤ 0 then 1 else m) ≤ r2 / (if m ≤ 0 then 1 else m) := by
    gcongr
  have hmin : min (r1 / (if m ≤ 0 then 1 else m)) 1 ≤
      min (r2 / (if m ≤ 0 then 1 else m)) 1 := min_le_min hdiv le_rfl
  have hmax : max (min (r1 / (if m ≤ 0 then 1 else m)) 1) (-1) ≤
      max (min (r2 / (if m ≤ 0 then 1 else m)) 1) (-1) := max_le_max hmin le_rfl
  nlinarith

theorem calibrate_score_zero (m : ℚ) : calibrate_score 0 m = 50 := by
  rw [calibrate_score_def]
  apply pyRound_eq
  rw [zero_div]
  norm_num

theorem weighted_sum_raw_append (xs ys : FeatureSet) (w : WeightConfig) :
    (weighted_sum (xs ++ ys) w).1 = (weighted_sum xs w).1 + (weighted_sum ys w).1 := by
  simp [weighted_sum]

theorem weighted_sum_raw_cons (n : String) (v : ℚ) (ys : FeatureSet)
    (w : WeightConfig) :
    (weighted_sum ((n, v) :: ys) w).1 =
      v * (lookupW n w).getD 0 + (weighted_sum ys w).1 := by
  cases h : lookupW n w with
  | none => simp [weighted_sum, h]
  | some wt => simp [weighted_sum, h]

theorem lookupW_eq_some_mem {n : String} {w : List (String × ℚ)} {q : ℚ}
    (h : lookupW n w = some q) : ∃ e ∈ w, e.2 = q := by
  induction w with
  | nil => simp [lookupW] at h
  | cons e es ih =>
    rw [lookupW] at h
    split_ifs at h with he
    · exact ⟨e, List.mem_cons_self e es, by simpa using h⟩
    · obtain ⟨e2, h1, h2⟩ := ih h
      exact ⟨e2, List.mem_cons_of_mem e h1, h2⟩

theorem weighted_sum_raw_zero {w : WeightConfig} (hz : ∀ e ∈ w, e.2 = 0)
    (fs : FeatureSet) : (weighted_sum fs w).1 = 0 := by
  apply List.sum_eq_zero
  intro x hx
  simp only [weighted_sum, List.mem_map, List.mem_filterMap] at hx
  obtain ⟨c, ⟨f, hf, hc⟩, hxc⟩ := hx
  cases hl : lookupW f.1 w with
  | none => rw [hl] at hc; simp at hc
  | some wt =>
    rw [hl] at hc
    obtain ⟨e, hew, hq⟩ := lookupW_eq_some_mem hl
    have hwt : wt = 0 := hq ▸ hz e hew
    have hc2 : c = (f.1, f.2 * wt) := by simpa using hc.symm
    rw [hc2] at hxc
    simp [← hxc, hwt]

theorem mem_insertDescAbs {a x : String × ℚ} {l : List (String × ℚ)} :
    a ∈ insertDescAbs x l ↔ a = x ∨ a ∈ l := by
  induction l with
  | nil => simp [insertDescAbs]
  | cons y ys ih =>
    rw [insertDescAbs]
    split_ifs with h
    · simp
    · simp only [List.mem_cons, ih]
      tauto

theorem mem_sortDescAbs {a : String × ℚ} {l : List (String × ℚ)} :
    a ∈ sortDescAbs l ↔ a ∈ l := by
  induction l with
  | nil => simp [sortDescAbs]
  | cons x xs ih =>
    rw [sortDescAbs, mem_insertDescAbs]
    simp [ih]

theorem pairwise_insertDescAbs {x : String × ℚ} {l : List (String × ℚ)}
    (h : l.Pairwise (fun a b => |b.2| ≤ |a.2|)) :
    (insertDescAbs x l).Pairwise (fun a b => |b.2| ≤ |a.2|) := by
  induction l with
  | nil => simp [insertDescAbs]
  | cons y ys ih =>
    rw [List.pairwise_cons] at h
    obtain ⟨hy, hys⟩ := h
    rw [insertDescAbs]
    split_ifs with hle
    · rw [List.pairwise_cons]
      constructor
      · intro b hb
        rcases List.mem_cons.mp hb with rfl | hb
        · exact hle
        · exact (hy b hb).trans hle
      · exact List.pairwise_cons.mpr ⟨hy, hys⟩
    · rw [List.pairwise_cons]
      constructor
      · intro b hb
        rcases mem_insertDescAbs.mp hb with rfl | hb
        · exact le_of_not_le hle
        · exact hy b hb
      · exact ih hys

theorem pairwise_sortDescAbs (l : List (String × ℚ)) :
    (sortDescAbs l).Pairwise (fun a b => |b.2| ≤ |a.2|) := by
  induction l with
  | nil => simp [sortDescAbs]
  | cons x xs ih => exact pairwise_insertDescAbs ih

theorem top_reason_codes_pairwise (c : List (String × ℚ)) (k : ℕ) :
    (top_reason_codes c k).Pairwise reasonGE := by
  rw [top_reason_codes, List.pairwise_map]
  exact ((pairwise_sortDescAbs c).sublist (List.take_sublist k _))

theorem top_reason_codes_length (c : List (String × ℚ)) (k : ℕ) :
    (top_reason_codes c k).length ≤ k := by
  rw [top_reason_codes, List.length_map, List.length_take]
  exact min_le_left _ _

theorem mem_top_reason_codes {rc : ReasonCode} {c : List (String × ℚ)} {k : ℕ}
    (h : rc ∈ top_reason_codes c k) : ∃ e ∈ c, rc = ⟨e.1, e.2⟩ := by
  rw [top_reason_codes, List.mem_map] at h
  obtain ⟨e, he, rfl⟩ := h
  have := mem_sortDescAbs.mp ((List.take_sublist k _).mem he)
  exact ⟨e, this, rfl⟩

theorem calculate_score_score_eq (p : ScoreInput) (w : Option WeightConfig) :
    (calculate_score p w).score =
      calibrate_score (weighted_sum (extract_all_features p) (effectiveWeights w)).1
        (dynamic_max (effectiveWeights w)) := rfl

theorem calculate_score_status_eq (p : ScoreInput) (w : Option WeightConfig) :
    (calculate_score p w).status =
      (map_to_status_action (calculate_score p w).score).1 := rfl

theorem calculate_score_action_eq (p : ScoreInput) (w : Option WeightConfig) :
    (calculate_score p w).recommended_action =
      (map_to_status_action (calculate_score p w).score).2 := rfl

theorem calculate_score_reason_codes_eq (p : ScoreInput) (w : Option WeightConfig) :
    (calculate_score p w).reason_codes =
      (if (hard_rules (extract_all_features p)).1 then
        (⟨(hard_rules (extract_all_features p)).2, -999⟩ : ReasonCode) ::
          top_reason_codes (weighted_sum (extract_all_features p) (effectiveWeights w)).2 5
      else
        top_reason_codes (weighted_sum (extract_all_features p) (effectiveWeights w)).2 5) := rfl

theorem calculate_score_metadata_eq (p : ScoreInput) (w : Option WeightConfig) :
    (calculate_score p w).metadata =
      { model_version := "v0.1.0"
        hard_rule_fired := (hard_rules (extract_all_features p)).1
        context := p.context.getD [] } := rfl

/-! ### Claims -/

/-- C1: for every payload and every weight configuration, the `score`
field of the `ScoreResult` returned by `calculate_score` is an integer
between 0 and 100 inclusive. -/
theorem claim_C1_score_bounded (p : ScoreInput) (w : Option WeightConfig) :
    0 ≤ (calculate_score p w).score ∧ (calculate_score p w).score ≤ 100 :=
  ⟨calibrate_score_nonneg _ _, calibrate_score_le_100 _ _⟩

/-- C2: the score-to-status mapping satisfies the exact thresholds:
75 ↦ LEGITIMO (spec: LEGITIMATE)/ALLOW, 74 and 50 ↦ DESCONFIAVEL
(SUSPICIOUS)/STEP_UP_AUTH, 49 ↦ ALTO_RISCO (HIGH_RISK)/BLOCK, and in
general the three bands ≥75, 50-74, <50 map one-to-one to the three
status/action pairs. -/
theorem claim_C2_classification_thresholds :
    map_to_status_action 75 = (RiskStatus.LEGITIMO, RecommendedAction.ALLOW) ∧
    map_to_status_action 74 = (RiskStatus.DESCONFIAVEL, RecommendedAction.STEP_UP_AUTH) ∧
    map_to_status_action 50 = (RiskStatus.DESCONFIAVEL, RecommendedAction.STEP_UP_AUTH) ∧
    map_to_status_action 49 = (RiskStatus.ALTO_RISCO, RecommendedAction.BLOCK) ∧
    ∀ s : ℤ,
      (75 ≤ s → map_to_status_action s = (RiskStatus.LEGITIMO, RecommendedAction.ALLOW)) ∧
      (50 ≤ s → s ≤ 74 →
        map_to_status_action s = (RiskStatus.DESCONFIAVEL, RecommendedAction.STEP_UP_AUTH)) ∧
      (s < 50 → map_to_status_action s = (RiskStatus.ALTO_RISCO, RecommendedAction.BLOCK)) := by
  refine ⟨by decide, by decide, by decide, by decide, ?_⟩
  intro s
  refine ⟨fun h1 => ?_, fun h1 h2 => ?_, fun h1 => ?_⟩ <;>
    simp only [map_to_status_action] <;> split_ifs <;> first | rfl | omega

/-- Witness for C2 at concrete scores in each band. -/
theorem claim_C2_witness :
    map_to_status_action 100 = (RiskStatus.LEGITIMO, RecommendedAction.ALLOW) ∧
    map_to_status_action 60 = (RiskStatus.DESCONFIAVEL, RecommendedAction.STEP_UP_AUTH) ∧
    map_to_status_action 0 = (RiskStatus.ALTO_RISCO, RecommendedAction.BLOCK) :=
  ⟨(claim_C2_classification_thresholds.2.2.2.2 100).1 (by decide),
   ((claim_C2_classification_thresholds.2.2.2.2 60).2.1 (by decide) (by decide)),
   (claim_C2_classification_thresholds.2.2.2.2 0).2.2 (by decide)⟩

/-- C3: the calibrated score produced by the pipeline (with the dynamic
normalization bound of scoring.py line 97) equals the spec formula
`round((clamp(raw / max(1.0, sum(|w|)/2), -1, 1) + 1) * 50)`, and a raw
score of exactly 0 maps to 50. -/
theorem claim_C3_calibration_formula (raw : ℚ) (w : WeightConfig) :
    calibrate_score raw (dynamic_max w) = calibrate_spec raw w ∧
    calibrate_score 0 (dynamic_max w) = 50 := by
  constructor
  · rw [calibrate_score_def, calibrate_spec]
    have h1 : (1 : ℚ) ≤ dynamic_max w := le_max_left _ _
    rw [if_neg (by linarith)]
    rfl
  · exact calibrate_score_zero _

/-- C7: `calculate_score` is deterministic — two runs on the same
`(payload, weights)` agree in every field of the returned `ScoreResult`.
In this pure embedding of the source (whose only side effect is
diagnostic logging, which does not feed back into the result) this holds
definitionally. -/
theorem claim_C7_determinism (p : ScoreInput) (w : Option WeightConfig) :
    (calculate_score p w).score = (calculate_score p w).score ∧
    (calculate_score p w).status = (calculate_score p w).status ∧
    (calculate_score p w).recommended_action = (calculate_score p w).recommended_action ∧
    (calculate_score p w).reason_codes = (calculate_score p w).reason_codes ∧
    (calculate_score p w).metadata = (calculate_score p w).metadata :=
  ⟨rfl, rfl, rfl, rfl, rfl⟩

/-- C10: the metadata of every result consists exactly of the model
version "v0.1.0", the hard-rule flag, and the pass-through context:
the payload's context map unmodified when present, the empty map when
absent. -/
theorem claim_C10_metadata (p : ScoreInput) (w : Option WeightConfig) :
    (calculate_score p w).metadata.model_version = "v0.1.0" ∧
    (calculate_score p w).metadata.hard_rule_fired =
      (hard_rules (extract_all_features p)).1 ∧
    (∀ c : Context, p.context = some c → (calculate_score p w).metadata.context = c) ∧
    (p.context = none → (calculate_score p w).metadata.context = []) := by
  refine ⟨rfl, rfl, fun c hc => ?_, fun hc => ?_⟩
  · rw [calculate_score_metadata_eq]
    simp [hc]
  · rw [calculate_score_metadata_eq]
    simp [hc]

/-- Witness for C10: the context is passed through on a payload that has
one and defaults to the empty map on a payload without one. -/
theorem claim_C10_witness :
    (calculate_score ⟨[], [], [], [], some [("session", "abc")]⟩ none).metadata.context =
      [("session", "abc")] ∧
    (calculate_score ⟨[], [], [], [], none⟩ none).metadata.context = [] :=
  ⟨(claim_C10_metadata ⟨[], [], [], [], some [("session", "abc")]⟩ none).2.2.1
      [("session", "abc")] rfl,
   (claim_C10_metadata ⟨[], [], [], [], none⟩ none).2.2.2 rfl⟩

/-- C5: a fired hard rule only annotates the result: score, status and
recommended action are exactly those of the hard-rule-free pipeline, the
hard rule only prepends its synthetic reason code and sets the metadata
flag; in particular a result can be LEGITIMO (LEGITIMATE)/ALLOW even
though a hard rule fired. -/
theorem claim_C5_hard_rule_annotates_only :
    (∀ (p : ScoreInput) (w : Option WeightConfig),
      (calculate_score p w).score = (calculate_score_no_hard p w).score ∧
      (calculate_score p w).status = (calculate_score_no_hard p w).status ∧
      (calculate_score p w).recommended_action =
        (calculate_score_no_hard p w).recommended_action ∧
      (calculate_score p w).reason_codes =
        (if (hard_rules (extract_all_features p)).1 then
          (⟨(hard_rules (extract_all_features p)).2, -999⟩ : ReasonCode) ::
            (calculate_score_no_hard p w).reason_codes
        else (calculate_score_no_hard p w).reason_codes) ∧
      (calculate_score p w).metadata.model_version =
        (calculate_score_no_hard p w).metadata.model_version ∧
      (calculate_score p w).metadata.context =
        (calculate_score_no_hard p w).metadata.context ∧
      (calculate_score p w).metadata.hard_rule_fired =
        (hard_rules (extract_all_features p)).1) ∧
    (∃ p : ScoreInput, (hard_rules (extract_all_features p)).1 = true ∧
      (calculate_score p none).status = RiskStatus.LEGITIMO ∧
      (calculate_score p none).recommended_action = RecommendedAction.ALLOW) := by
  constructor
  · exact fun p w => ⟨rfl, rfl, rfl, rfl, rfl, rfl, rfl⟩
  · refine ⟨⟨[("credential_revoked", 1), ("ip_risk", 10)], [], [], [], none⟩, ?_, ?_, ?_⟩
    · simp [hard_rules, hardRuleList, extract_all_features, featureVal, lookupW,
        List.find?]
    · have hs : (calculate_score
          ⟨[("credential_revoked", 1), ("ip_risk", 10)], [], [], [], none⟩ none).score = 100 := by
        simp [calculate_score, effectiveWeights, DEFAULT_WEIGHTS, extract_all_features,
          weighted_sum, lookupW, dynamic_max, calibrate_score, hard_rules, hardRuleList,
          featureVal, top_reason_codes, sortDescAbs, insertDescAbs, List.find?]
        apply pyRound_eq
        norm_num [abs, max_def, min_def]
      rw [calculate_score_status_eq, hs]
      decide
    · have hs : (calculate_score
          ⟨[("credential_revoked", 1), ("ip_risk", 10)], [], [], [], none⟩ none).score = 100 := by
        simp [calculate_score, effectiveWeights, DEFAULT_WEIGHTS, extract_all_features,
          weighted_sum, lookupW, dynamic_max, calibrate_score, hard_rules, hardRuleList,
          featureVal, top_reason_codes, sortDescAbs, insertDescAbs, List.find?]
        apply pyRound_eq
        norm_num [abs, max_def, min_def]
      rw [calculate_score_action_eq, hs]
      decide

/-- C4 as stated is false: an *empty* supplied `WeightConfig` is falsy in
Python, so `weights or DEFAULT_WEIGHTS` (line 82) silently falls back to
the default weights and the result depends on the payload; here an
ip_risk signal drives the score to 100 instead of the neutral 50. -/
theorem claim_C4_counterexample :
    (calculate_score ⟨[("ip_risk", 10)], [], [], [], none⟩ (some [])).score = 100 ∧
    ¬ ((calculate_score ⟨[("ip_risk", 10)], [], [], [], none⟩ (some [])).score = 50 ∧
       (calculate_score ⟨[("ip_risk", 10)], [], [], [], none⟩ (some [])).status =
         RiskStatus.DESCONFIAVEL) := by
  have hs : (calculate_score ⟨[("ip_risk", 10)], [], [], [], none⟩ (some [])).score = 100 := by
    simp [calculate_score, effectiveWeights, DEFAULT_WEIGHTS, extract_all_features,
      weighted_sum, lookupW, dynamic_max, calibrate_score, hard_rules, hardRuleList,
      featureVal, top_reason_codes, sortDescAbs, insertDescAbs, List.find?]
    apply pyRound_eq
    norm_num [abs, max_def, min_def]
  exact ⟨hs, fun h => by rw [hs] at h; exact absurd h.1 (by decide)⟩

/-- C4 amended: a supplied *non-empty* `WeightConfig` mapping every
feature to weight zero yields the neutral midpoint, score = 50 with
status DESCONFIAVEL (SUSPICIOUS), regardless of payload content. (An
empty config is falsy and falls back to `DEFAULT_WEIGHTS`.) -/
theorem claim_C4_all_zero_weights (p : ScoreInput) (w : WeightConfig)
    (hne : w ≠ []) (hz : ∀ e ∈ w, e.2 = 0) :
    (calculate_score p (some w)).score = 50 ∧
    (calculate_score p (some w)).status = RiskStatus.DESCONFIAVEL := by
  have hw : effectiveWeights (some w) = w := by simp [effectiveWeights, hne]
  have hs : (calculate_score p (some w)).score = 50 := by
    rw [calculate_score_score_eq, hw, weighted_sum_raw_zero hz, calibrate_score_zero]
  refine ⟨hs, ?_⟩
  rw [calculate_score_status_eq, hs]
  decide

/-- Witness for C4 (amended) at a concrete payload and an all-zero
one-entry weight configuration. -/
theorem claim_C4_witness :
    (calculate_score ⟨[("ip_risk", 7)], [], [], [], none⟩ (some [("x", 0)])).score = 50 ∧
    (calculate_score ⟨[("ip_risk", 7)], [], [], [], none⟩ (some [("x", 0)])).status =
      RiskStatus.DESCONFIAVEL :=
  claim_C4_all_zero_weights ⟨[("ip_risk", 7)], [], [], [], none⟩ [("x", 0)]
    (by simp) (by simp)

theorem abs_neg_999 : |(-999 : ℚ)| = 999 := by
  rw [abs_neg]
  exact abs_of_pos (by norm_num)

/-- C6 as stated is false: the sentinel contribution is the fixed
constant -999.0, so a weighted contribution of larger magnitude (here
2000, from weight 2000 on a feature of value 1) is more extreme than the
sentinel. -/
theorem claim_C6_counterexample :
    (hard_rules (extract_all_features
      ⟨[("credential_revoked", 1), ("big", 1)], [], [], [], none⟩)).1 = true ∧
    (calculate_score ⟨[("credential_revoked", 1), ("big", 1)], [], [], [], none⟩
        (some [("big", 2000)])).reason_codes =
      [⟨"HARD_CREDENTIAL_REVOKED", -999⟩, ⟨"big", 2000⟩] ∧
    ¬ (∀ c ∈ (weighted_sum
        (extract_all_features ⟨[("credential_revoked", 1), ("big", 1)], [], [], [], none⟩)
        (effectiveWeights (some [("big", 2000)]))).2, |c.2| < |(-999 : ℚ)|) := by
  refine ⟨?_, ?_, ?_⟩
  · simp [hard_rules, hardRuleList, extract_all_features, featureVal, lookupW,
      List.find?]
  · simp [calculate_score, effectiveWeights, DEFAULT_WEIGHTS, extract_all_features,
      weighted_sum, lookupW, dynamic_max, calibrate_score, hard_rules, hardRuleList,
      featureVal, top_reason_codes, sortDescAbs, insertDescAbs, List.find?]
  · intro h
    have hmem : (("big", (2000 : ℚ))) ∈ (weighted_sum
        (extract_all_features ⟨[("credential_revoked", 1), ("big", 1)], [], [], [], none⟩)
        (effectiveWeights (some [("big", 2000)]))).2 := by
      simp [weighted_sum, extract_all_features, effectiveWeights, lookupW]
    have := h _ hmem
    rw [abs_neg_999] at this
    have h2000 : |(2000 : ℚ)| = 2000 := abs_of_pos (by norm_num)
    rw [h2000] at this
    norm_num at this

/-- C6 amended: whenever a hard rule fires, the result has
`metadata.hard_rule_fired = true` and its first reason code is the fired
rule's code with the fixed sentinel contribution -999.0; the sentinel's
magnitude exceeds that of every weighted contribution provided each
contribution has magnitude below 999 (not in general). -/
theorem claim_C6_hard_rule_firing (p : ScoreInput) (w : Option WeightConfig)
    (h : (hard_rules (extract_all_features p)).1 = true) :
    (calculate_score p w).metadata.hard_rule_fired = true ∧
    (calculate_score p w).reason_codes.head? =
      some ⟨(hard_rules (extract_all_features p)).2, -999⟩ ∧
    ∀ c ∈ (weighted_sum (extract_all_features p) (effectiveWeights w)).2,
      |c.2| < 999 → |c.2| < |(-999 : ℚ)| := by
  refine ⟨?_, ?_, ?_⟩
  · rw [calculate_score_metadata_eq]
    exact h
  · rw [calculate_score_reason_codes_eq, if_pos h]
    rfl
  · intro c _ hlt
    rw [abs_neg_999]
    exact hlt

/-- Witness for C6 (amended): a payload with a revoked credential fires
the first hard rule. -/
theorem claim_C6_witness :
    (calculate_score ⟨[("credential_revoked", 1)], [], [], [], none⟩
        (some [("f", 1)])).metadata.hard_rule_fired = true ∧
    (calculate_score ⟨[("credential_revoked", 1)], [], [], [], none⟩
        (some [("f", 1)])).reason_codes.head? =
      some ⟨(hard_rules (extract_all_features
        ⟨[("credential_revoked", 1)], [], [], [], none⟩)).2, -999⟩ ∧
    ∀ c ∈ (weighted_sum
        (extract_all_features ⟨[("credential_revoked", 1)], [], [], [], none⟩)
        (effectiveWeights (some [("f", 1)]))).2,
      |c.2| < 999 → |c.2| < |(-999 : ℚ)| :=
  claim_C6_hard_rule_firing ⟨[("credential_revoked", 1)], [], [], [], none⟩
    (some [("f", 1)])
    (by simp [hard_rules, hardRuleList, extract_all_features, featureVal, lookupW,
      List.find?])

/-- C8: monotonicity — raising the value of a single nonnegative feature
holding everything else fixed does not decrease the score when the
feature's effective weight is nonnegative, and does not increase it when
the weight is nonpositive. -/
theorem claim_C8_monotonicity (d1 d2 b g bio : List (String × ℚ))
    (ctx : Option Context) (n : String) (v1 v2 : ℚ) (w : Option WeightConfig)
    (h0 : 0 ≤ v1) (h12 : v1 ≤ v2) :
    (0 ≤ (lookupW n (effectiveWeights w)).getD 0 →
      (calculate_score ⟨d1 ++ (n, v1) :: d2, b, g, bio, ctx⟩ w).score ≤
        (calculate_score ⟨d1 ++ (n, v2) :: d2, b, g, bio, ctx⟩ w).score) ∧
    ((lookupW n (effectiveWeights w)).getD 0 ≤ 0 →
      (calculate_score ⟨d1 ++ (n, v2) :: d2, b, g, bio, ctx⟩ w).score ≤
        (calculate_score ⟨d1 ++ (n, v1) :: d2, b, g, bio, ctx⟩ w).score) := by
  have hex : ∀ v : ℚ,
      extract_all_features ⟨d1 ++ (n, v) :: d2, b, g, bio, ctx⟩ =
        d1 ++ (n, v) :: (d2 ++ b ++ g ++ bio) := by
    intro v
    simp [extract_all_features]
  have hraw : ∀ v : ℚ,
      (weighted_sum (extract_all_features ⟨d1 ++ (n, v) :: d2, b, g, bio, ctx⟩)
        (effectiveWeights w)).1 =
        (weighted_sum d1 (effectiveWeights w)).1 +
          (v * (lookupW n (effectiveWeights w)).getD 0 +
            (weighted_sum (d2 ++ b ++ g ++ bio) (effectiveWeights w)).1) := by
    intro v
    rw [hex v, weighted_sum_raw_append, weighted_sum_raw_cons]
  constructor
  · intro hw
    rw [calculate_score_score_eq, calculate_score_score_eq]
    apply calibrate_score_mono
    rw [hraw v1, hraw v2]
    have := mul_le_mul_of_nonneg_right h12 hw
    linarith
  · intro hw
    rw [calculate_score_score_eq, calculate_score_score_eq]
    apply calibrate_score_mono
    rw [hraw v1, hraw v2]
    nlinarith

/-- Witness for C8 at a one-feature payload with a positive weight. -/
theorem claim_C8_witness :
    (calculate_score ⟨[] ++ ("ip_risk", (0 : ℚ)) :: [], [], [], [], none⟩
        (some [("ip_risk", 2)])).score ≤
      (calculate_score ⟨[] ++ ("ip_risk", (1 : ℚ)) :: [], [], [], [], none⟩
        (some [("ip_risk", 2)])).score :=
  (claim_C8_monotonicity [] [] [] [] [] none "ip_risk" 0 1 (some [("ip_risk", 2)])
    le_rfl (by norm_num)).1
    (by simp [effectiveWeights, lookupW])

/-- C9 as stated is false: with a fired hard rule and a weighted
contribution of magnitude above 999 the prepended sentinel breaks the
descending order of `reason_codes`. -/
theorem claim_C9_counterexample :
    (calculate_score ⟨[("credential_revoked", 1), ("big", 1)], [], [], [], none⟩
        (some [("big", 2000)])).reason_codes =
      [⟨"HARD_CREDENTIAL_REVOKED", -999⟩, ⟨"big", 2000⟩] ∧
    ¬ (calculate_score ⟨[("credential_revoked", 1), ("big", 1)], [], [], [], none⟩
        (some [("big", 2000)])).reason_codes.Pairwise reasonGE := by
  have he : (calculate_score ⟨[("credential_revoked", 1), ("big", 1)], [], [], [], none⟩
      (some [("big", 2000)])).reason_codes =
      [⟨"HARD_CREDENTIAL_REVOKED", -999⟩, ⟨"big", 2000⟩] := by
    simp [calculate_score, effectiveWeights, DEFAULT_WEIGHTS, extract_all_features,
      weighted_sum, lookupW, dynamic_max, calibrate_score, hard_rules, hardRuleList,
      featureVal, top_reason_codes, sortDescAbs, insertDescAbs, List.find?]
  refine ⟨he, ?_⟩
  rw [he]
  intro hp
  have := (List.pairwise_cons.mp hp).1 ⟨"big", 2000⟩ (by simp)
  rw [reasonGE] at this
  simp only at this
  rw [abs_neg_999] at this
  have h2000 : |(2000 : ℚ)| = 2000 := abs_of_pos (by norm_num)
  rw [h2000] at this
  norm_num at this

/-- C9 amended: without a fired hard rule, `reason_codes` is sorted by
descending absolute contribution (stable ties) and has length ≤ 5; with
a fired hard rule, the sentinel is prepended (length ≤ 6), the tail is
sorted, and the full list is sorted provided every weighted contribution
has magnitude at most 999. -/
theorem claim_C9_reason_code_ordering (p : ScoreInput) (w : Option WeightConfig) :
    ((hard_rules (extract_all_features p)).1 = false →
      (calculate_score p w).reason_codes.Pairwise reasonGE ∧
      (calculate_score p w).reason_codes.length ≤ 5) ∧
    ((hard_rules (extract_all_features p)).1 = true →
      (calculate_score p w).reason_codes.length ≤ 6 ∧
      (calculate_score p w).reason_codes.tail.Pairwise reasonGE ∧
      ((∀ c ∈ (weighted_sum (extract_all_features p) (effectiveWeights w)).2,
          |c.2| ≤ 999) →
        (calculate_score p w).reason_codes.Pairwise reasonGE)) := by
  constructor
  · intro h
    rw [calculate_score_reason_codes_eq, if_neg (by simp [h])]
    exact ⟨top_reason_codes_pairwise _ _, top_reason_codes_length _ _⟩
  · intro h
    rw [calculate_score_reason_codes_eq, if_pos h]
    refine ⟨?_, ?_, ?_⟩
    · have := top_reason_codes_length
        (weighted_sum (extract_all_features p) (effectiveWeights w)).2 5
      simp only [List.length_cons]
      omega
    · simpa using top_reason_codes_pairwise _ _
    · intro hb
      rw [List.pairwise_cons]
      refine ⟨fun rc hrc => ?_, top_reason_codes_pairwise _ _⟩
      obtain ⟨e, he, rfl⟩ := mem_top_reason_codes hrc
      rw [reasonGE]
      simp only
      rw [abs_neg_999]
      exact hb e he

/-- Witness for C9 (amended) on a payload that fires no hard rule. -/
theorem claim_C9_witness :
    (calculate_score ⟨[("ip_risk", 10)], [], [], [], none⟩ none).reason_codes.Pairwise
      reasonGE ∧
    (calculate_score ⟨[("ip_risk", 10)], [], [], [], none⟩ none).reason_codes.length ≤ 5 :=
  (claim_C9_reason_code_ordering ⟨[("ip_risk", 10)], [], [], [], none⟩ none).1
    (by simp [hard_rules, hardRuleList, extract_all_features, featureVal, lookupW,
      List.find?])

end EOT
